import Mathlib

/-!
Verification development for the delivery-tracking map component
(src/src/components/Maps/GoogleMap.tsx).

The component tracks a courier position, emits location and status events over a
socket, and reconciles inbound delivery snapshots.  The definitions below are a
shallow embedding of that code: JavaScript values that may be `undefined` or
`null` become `Option`, property access on a possibly-missing object becomes
`Option.map` / `Option.bind`, strict equality becomes decidable equality, and
the float64 coordinate components are modelled as exact values (`Int`) because
the source compares them with strict equality and no tolerance.
-/

/-- A geographic coordinate (GoogleMap.tsx, `interface Position`, lines 12-15). -/
structure Position where
  lat : Int
  lng : Int
  deriving DecidableEq, Repr

/-- The delivery record as the component sees it at runtime.  The TypeScript
type lives outside this component; at runtime every field of an incoming
snapshot may be missing, and a missing property reads as `undefined`, so every
field is modelled as an `Option`. -/
structure Delivery where
  _id : Option String
  location : Option Position
  status : Option String
  deriving DecidableEq, Repr

/-- Payload of an outbound `location_changed` emission (GoogleMap.tsx lines 81-85). -/
structure LocationChangedEvent where
  event : String
  delivery_id : Option String
  location : Position
  deriving DecidableEq, Repr

/-- Payload of an outbound `status_changed` emission (GoogleMap.tsx lines 132-136 etc.). -/
structure StatusChangedEvent where
  event : String
  delivery_id : Option String
  status : String
  deriving DecidableEq, Repr

/-- The component state the handlers read and write: `currentPosition` (the
`useState` cell, the spec's LocalPosition) and the held delivery from the
delivery context. -/
structure HandlerState where
  currentPosition : Option Position
  delivery : Option Delivery
  deriving DecidableEq, Repr

/-- GoogleMap.tsx lines 58-62:
`location1?.lat !== location2?.lat || location1?.lng !== location2?.lng`.
Optional chaining on a possibly-null object is `Option.map`; `!==` on the
resulting number-or-undefined values is decidable disequality on `Option Int`. -/
def areLocationDifferent (location1 location2 : Option Position) : Bool :=
  decide (location1.map Position.lat ≠ location2.map Position.lat) ||
  decide (location1.map Position.lng ≠ location2.map Position.lng)

/-- GoogleMap.tsx lines 64-87, `handleBrowserFetchCurrentLocation`: given a
fresh sample `location`, update `currentPosition` when it differs from the
sample, and emit a `location_changed` event when the held delivery's stored
location is present (the truthiness guard `deliveryContext?.delivery?.location`)
and differs from the sample.  Returns the new state and the list of emissions. -/
def handleBrowserFetchCurrentLocation (st : HandlerState) (location : Position) :
    HandlerState × List LocationChangedEvent :=
  let newCurrentPosition :=
    if areLocationDifferent (some location) st.currentPosition then some location
    else st.currentPosition
  let emitted :=
    match st.delivery with
    | some d =>
      match d.location with
      | some stored =>
        if areLocationDifferent (some stored) (some location) then
          [⟨"location_changed", d._id, location⟩]
        else []
      | none => []
    | none => []
  (⟨newCurrentPosition, st.delivery⟩, emitted)

/-- Modelled from the spec: `updateDelivery` comes from `DeliveryContext`, which
is not under src/.  The spec says the inbound handler must "replace the locally
held Delivery's mutable fields (location, status) with the snapshot's — this is
an unconditional overwrite, not a merge", so the snapshot replaces the held
record wholesale. -/
def updateDelivery (_held : Option Delivery) (value : Delivery) : Option Delivery :=
  some value

/-- GoogleMap.tsx lines 40-49, `onDeliveryUpdatedEvent`: accept the snapshot
exactly when `value._id === deliveryContext.delivery?._id` under JavaScript
strict equality, where either side may be `undefined` (embedded as `none`). -/
def onDeliveryUpdatedEvent (held : Option Delivery) (value : Delivery) : Option Delivery :=
  if value._id = held.bind (fun d => d._id) then updateDelivery held value else held

/-- GoogleMap.tsx lines 131-137, `onPickedUp`: emit one `status_changed` event
with target status `picked-up`; the held state is not touched. -/
def onPickedUp (st : HandlerState) : HandlerState × List StatusChangedEvent :=
  (st, [⟨"status_changed", st.delivery.bind (fun d => d._id), "picked-up"⟩])

/-- GoogleMap.tsx lines 139-145, `onInTransit`. -/
def onInTransit (st : HandlerState) : HandlerState × List StatusChangedEvent :=
  (st, [⟨"status_changed", st.delivery.bind (fun d => d._id), "in-transit"⟩])

/-- GoogleMap.tsx lines 147-153, `onDelivered`. -/
def onDelivered (st : HandlerState) : HandlerState × List StatusChangedEvent :=
  (st, [⟨"status_changed", st.delivery.bind (fun d => d._id), "delivered"⟩])

/-- GoogleMap.tsx lines 155-161, `onFailed`. -/
def onFailed (st : HandlerState) : HandlerState × List StatusChangedEvent :=
  (st, [⟨"status_changed", st.delivery.bind (fun d => d._id), "failed"⟩])

/-- GoogleMap.tsx lines 90-101, the mount effect: when the browser exposes
geolocation, exactly one position sample is requested immediately; otherwise
none.  Returns the number of immediate sample requests. -/
def mountEffectSampleRequests (geolocationAvailable : Bool) : Nat :=
  if geolocationAvailable then 1 else 0

/-- GoogleMap.tsx lines 110-118: each timer tick requests one sample when the
browser exposes geolocation. -/
def intervalTickSampleRequests (geolocationAvailable : Bool) : Nat :=
  if geolocationAvailable then 1 else 0

/-- GoogleMap.tsx lines 104-129, the interval effect: a recurring timer of
period `20 * 1000` milliseconds is armed exactly when the held delivery's
status is neither `delivered` nor `failed`.  Returns the armed period, `none`
when no timer is armed. -/
def intervalEffect (delivery : Option Delivery) : Option Nat :=
  if delivery.bind Delivery.status ≠ some "delivered" ∧
      delivery.bind Delivery.status ≠ some "failed" then
    some (20 * 1000)
  else none

/-- GoogleMap.tsx lines 122-127, the interval effect cleanup: `clearInterval`
disarms whatever timer the effect had armed. -/
def intervalEffectCleanup (_armed : Option Nat) : Option Nat := none

/-! ## Helper lemmas about the change detector -/

theorem aLD_symm (a b : Option Position) :
    areLocationDifferent a b = areLocationDifferent b a := by
  unfold areLocationDifferent
  congr 1
  · exact decide_eq_decide.mpr ne_comm
  · exact decide_eq_decide.mpr ne_comm

theorem aLD_refl (a : Option Position) : areLocationDifferent a a = false := by
  simp [areLocationDifferent]

theorem aLD_some_none (b : Position) : areLocationDifferent (some b) none = true := by
  simp [areLocationDifferent]

/-! ## Claim theorems -/

/-- Claim C6: the Change Detector `areLocationDifferent` is a total function
satisfying symmetry, reflexivity on present coordinates (`differs(a,a) = false`),
and absent-versus-present difference (`differs(absent, b) = true`). -/
theorem areLocationDifferent_algebra :
    (∀ a b : Option Position, areLocationDifferent a b = areLocationDifferent b a) ∧
    (∀ a : Position, areLocationDifferent (some a) (some a) = false) ∧
    (∀ b : Position, areLocationDifferent none (some b) = true) := by
  refine ⟨aLD_symm, fun a => aLD_refl (some a), fun b => ?_⟩
  simp [areLocationDifferent]

/-- Claim C9: the Change Detector treats two absent coordinates as equal,
`areLocationDifferent none none = false`, so a comparison with both sides
absent never fires a guard in the outbound path. -/
theorem areLocationDifferent_none_none : areLocationDifferent none none = false := by
  decide

/-- Claim C5: the inbound `delivery_updated` handler overwrites the held
delivery wholesale with the snapshot when the snapshot's `_id` equals the held
delivery's id, and leaves the state untouched when the ids differ. -/
theorem onDeliveryUpdatedEvent_overwrite_or_ignore (held : Option Delivery) (value : Delivery) :
    (value._id = held.bind (fun d => d._id) →
      onDeliveryUpdatedEvent held value = some value) ∧
    (value._id ≠ held.bind (fun d => d._id) →
      onDeliveryUpdatedEvent held value = held) := by
  constructor
  · intro h
    simp [onDeliveryUpdatedEvent, h, updateDelivery]
  · intro h
    simp [onDeliveryUpdatedEvent, h]

/-- Witness for C5: a matching snapshot replaces the held delivery's location
and status; a mismatching one changes nothing. -/
theorem onDeliveryUpdatedEvent_overwrite_or_ignore_witness :
    onDeliveryUpdatedEvent (some ⟨some "D1", none, some "open"⟩)
        ⟨some "D1", some ⟨1, 2⟩, some "picked-up"⟩ =
      some ⟨some "D1", some ⟨1, 2⟩, some "picked-up"⟩ ∧
    onDeliveryUpdatedEvent (some ⟨some "D1", none, some "open"⟩)
        ⟨some "D2", some ⟨1, 2⟩, some "picked-up"⟩ =
      some ⟨some "D1", none, some "open"⟩ := by
  constructor
  · exact (onDeliveryUpdatedEvent_overwrite_or_ignore _ _).1 (by decide)
  · exact (onDeliveryUpdatedEvent_overwrite_or_ignore _ _).2 (by decide)

/-- Claim C10: when no delivery is held (held id reads as `undefined`) and the
snapshot's `_id` field is absent (also `undefined`), the strict-equality check
compares equal, so the malformed snapshot is accepted into local state. -/
theorem onDeliveryUpdatedEvent_accepts_absent_id (held : Option Delivery) (value : Delivery)
    (hheld : held = none) (hid : value._id = none) :
    onDeliveryUpdatedEvent held value = some value := by
  subst hheld
  simp [onDeliveryUpdatedEvent, hid, updateDelivery]

/-- Witness for C10: a snapshot with no `_id` is accepted while no delivery is held. -/
theorem onDeliveryUpdatedEvent_accepts_absent_id_witness :
    onDeliveryUpdatedEvent none ⟨none, some ⟨3, 4⟩, some "open"⟩ =
      some ⟨none, some ⟨3, 4⟩, some "open"⟩ :=
  onDeliveryUpdatedEvent_accepts_absent_id none _ rfl rfl

/-- Claim C7: each status trigger, whenever invoked, emits exactly one
`status_changed` event with its fixed target status and the held delivery's id,
performs no validation of the current status, and leaves the held state (in
particular the held delivery's status) unchanged. -/
theorem statusControllers_emit_only (st : HandlerState) :
    onPickedUp st = (st, [⟨"status_changed", st.delivery.bind (fun d => d._id), "picked-up"⟩]) ∧
    onInTransit st = (st, [⟨"status_changed", st.delivery.bind (fun d => d._id), "in-transit"⟩]) ∧
    onDelivered st = (st, [⟨"status_changed", st.delivery.bind (fun d => d._id), "delivered"⟩]) ∧
    onFailed st = (st, [⟨"status_changed", st.delivery.bind (fun d => d._id), "failed"⟩]) :=
  ⟨rfl, rfl, rfl, rfl⟩

/-- Claim C8: on activation exactly one sample is requested immediately (when
the provider is available); the recurring timer has the fixed period 20000 ms
and requests one sample per tick; it is armed exactly when the held delivery's
status is neither `delivered` nor `failed`; and the cleanup disarms it. -/
theorem positionSampler_lifecycle :
    mountEffectSampleRequests true = 1 ∧
    intervalTickSampleRequests true = 1 ∧
    (∀ delivery : Option Delivery,
      intervalEffect delivery = some 20000 ↔
        ¬(delivery.bind Delivery.status = some "delivered" ∨
          delivery.bind Delivery.status = some "failed")) ∧
    (∀ armed : Option Nat, intervalEffectCleanup armed = none) := by
  refine ⟨rfl, rfl, fun delivery => ?_, fun _ => rfl⟩
  by_cases h1 : delivery.bind Delivery.status = some "delivered"
  · simp [intervalEffect, h1]
  · by_cases h2 : delivery.bind Delivery.status = some "failed"
    · simp [intervalEffect, h1, h2]
    · simp [intervalEffect, h1, h2]

/-- Claim C1 counterexample: with the held delivery in terminal status
`delivered` and a stored location differing from the sample, a call of the
outbound handler still emits a `location_changed` event — the handler performs
no terminal-status check, so the claim's "zero emissions" is false. -/
theorem terminalGating_counterexample :
    (handleBrowserFetchCurrentLocation
        ⟨none, some ⟨some "D1", some ⟨0, 0⟩, some "delivered"⟩⟩ ⟨1, 1⟩).2 =
      [⟨"location_changed", some "D1", ⟨1, 1⟩⟩] := rfl

/-- Claim C1 amended: the outbound handler does not gate on terminal status; a
sample processed while the held delivery's status is `delivered` or `failed`
emits exactly when the stored location is present and differs from the sample.
The terminal-state gating lives in the interval effect instead, which arms no
sampling timer while the status is terminal. -/
theorem terminalGating_amended (st : HandlerState) (s : Position) (d : Delivery)
    (hd : st.delivery = some d)
    (hterm : d.status = some "delivered" ∨ d.status = some "failed") :
    ((handleBrowserFetchCurrentLocation st s).2 ≠ [] ↔
      ∃ stored, d.location = some stored ∧
        areLocationDifferent (some stored) (some s) = true) ∧
    intervalEffect st.delivery = none := by
  constructor
  · unfold handleBrowserFetchCurrentLocation
    rw [hd]
    cases hl : d.location with
    | none => simp [hl]
    | some stored =>
      by_cases hdiff : areLocationDifferent (some stored) (some s) = true
      · simp [hl, hdiff]
      · simp only [Bool.not_eq_true] at hdiff
        simp [hl, hdiff]
  · rcases hterm with h | h <;> simp [intervalEffect, hd, h]

/-- Witness for the amended C1 at a concrete terminal-status state. -/
theorem terminalGating_amended_witness :
    ((handleBrowserFetchCurrentLocation
        ⟨none, some ⟨some "D1", some ⟨0, 0⟩, some "delivered"⟩⟩ ⟨1, 1⟩).2 ≠ [] ↔
      ∃ stored, (⟨some "D1", some ⟨0, 0⟩, some "delivered"⟩ : Delivery).location = some stored ∧
        areLocationDifferent (some stored) (some ⟨1, 1⟩) = true) ∧
    intervalEffect (some ⟨some "D1", some ⟨0, 0⟩, some "delivered"⟩) = none :=
  terminalGating_amended ⟨none, some ⟨some "D1", some ⟨0, 0⟩, some "delivered"⟩⟩
    ⟨1, 1⟩ ⟨some "D1", some ⟨0, 0⟩, some "delivered"⟩ rfl (Or.inl rfl)

/-- Claim C2 counterexample: two identical samples with no intervening
`delivery_updated` each emit one `location_changed` event (two in total, not
one): the emission baseline is the stored delivery location, which the handler
never updates, so repeated identical samples are re-emitted. -/
theorem duplicateSample_counterexample :
    (handleBrowserFetchCurrentLocation
        ⟨none, some ⟨some "D1", some ⟨0, 0⟩, some "in-transit"⟩⟩ ⟨1, 1⟩).2.length = 1 ∧
    (handleBrowserFetchCurrentLocation
        (handleBrowserFetchCurrentLocation
          ⟨none, some ⟨some "D1", some ⟨0, 0⟩, some "in-transit"⟩⟩ ⟨1, 1⟩).1 ⟨1, 1⟩).2.length = 1 :=
  ⟨rfl, rfl⟩

/-- Claim C2 amended: processing the same sample twice with no intervening
`delivery_updated` is idempotent on the state and re-produces exactly the same
emissions the second time: LocalPosition is updated at most once per distinct
consecutive value, but duplicate samples are not deduplicated on the network
side — each repeat emits again whenever the first one emitted. -/
theorem duplicateSample_reemitted (st : HandlerState) (s : Position) :
    handleBrowserFetchCurrentLocation (handleBrowserFetchCurrentLocation st s).1 s =
      handleBrowserFetchCurrentLocation st s := by
  unfold handleBrowserFetchCurrentLocation
  by_cases h : areLocationDifferent (some s) st.currentPosition = true
  · simp [h, aLD_refl]
  · simp only [Bool.not_eq_true] at h
    simp [h]

/-- Claim C3 counterexample: LocalPosition absent, the held delivery's stored
location absent, sample `(10, 20)` arrives: LocalPosition becomes the sample
but no `location_changed` event is emitted, contrary to the claim. -/
theorem absentStoredLocation_counterexample :
    (handleBrowserFetchCurrentLocation
        ⟨none, some ⟨some "D1", none, some "open"⟩⟩ ⟨10, 20⟩).1.currentPosition =
      some ⟨10, 20⟩ ∧
    (handleBrowserFetchCurrentLocation
        ⟨none, some ⟨some "D1", none, some "open"⟩⟩ ⟨10, 20⟩).2 = [] :=
  ⟨rfl, rfl⟩

/-- Claim C3 amended: when LocalPosition and the stored delivery location are
both absent, a present sample sets LocalPosition to the sample but emits
nothing: the outbound path's truthiness guard requires the stored location to
be present before emitting, so an absent stored location suppresses the event
even though the Change Detector counts absent as different from present. -/
theorem absentStoredLocation_amended (st : HandlerState) (s : Position)
    (hcur : st.currentPosition = none)
    (hloc : st.delivery.bind Delivery.location = none) :
    (handleBrowserFetchCurrentLocation st s).1.currentPosition = some s ∧
    (handleBrowserFetchCurrentLocation st s).2 = [] := by
  constructor
  · unfold handleBrowserFetchCurrentLocation
    simp [hcur, aLD_some_none]
  · unfold handleBrowserFetchCurrentLocation
    cases hdel : st.delivery with
    | none => simp
    | some d =>
      rw [hdel] at hloc
      simp only [Option.some_bind] at hloc
      simp [hloc]

/-- Witness for the amended C3 at a concrete state. -/
theorem absentStoredLocation_amended_witness :
    (handleBrowserFetchCurrentLocation
        ⟨none, some ⟨some "D2", none, some "open"⟩⟩ ⟨10, 20⟩).1.currentPosition =
      some ⟨10, 20⟩ ∧
    (handleBrowserFetchCurrentLocation
        ⟨none, some ⟨some "D2", none, some "open"⟩⟩ ⟨10, 20⟩).2 = [] :=
  absentStoredLocation_amended _ _ rfl rfl

/-- Claim C4: a sample that differs from LocalPosition but equals the stored
delivery location still updates LocalPosition and emits nothing; a sample equal
to LocalPosition leaves LocalPosition unchanged — the two comparisons use their
two separate baselines independently. -/
theorem twoBaselines_independent (st : HandlerState) (s stored : Position) :
    (st.delivery.bind Delivery.location = some stored → stored = s →
      areLocationDifferent (some s) st.currentPosition = true →
      (handleBrowserFetchCurrentLocation st s).1.currentPosition = some s ∧
      (handleBrowserFetchCurrentLocation st s).2 = []) ∧
    (areLocationDifferent (some s) st.currentPosition = false →
      (handleBrowserFetchCurrentLocation st s).1.currentPosition = st.currentPosition) := by
  constructor
  · intro hloc hes hdiff
    subst hes
    cases hdel : st.delivery with
    | none => rw [hdel] at hloc; simp at hloc
    | some d =>
      rw [hdel] at hloc
      simp only [Option.some_bind] at hloc
      unfold handleBrowserFetchCurrentLocation
      simp [hdel, hloc, hdiff, aLD_refl]
  · intro h
    unfold handleBrowserFetchCurrentLocation
    simp [h]

/-- Witness for C4: both baselines exercised at concrete states. -/
theorem twoBaselines_independent_witness :
    ((handleBrowserFetchCurrentLocation
        ⟨none, some ⟨some "D1", some ⟨1, 1⟩, some "open"⟩⟩ ⟨1, 1⟩).1.currentPosition =
          some ⟨1, 1⟩ ∧
      (handleBrowserFetchCurrentLocation
        ⟨none, some ⟨some "D1", some ⟨1, 1⟩, some "open"⟩⟩ ⟨1, 1⟩).2 = []) ∧
    (handleBrowserFetchCurrentLocation
        ⟨some ⟨1, 1⟩, none⟩ ⟨1, 1⟩).1.currentPosition = some ⟨1, 1⟩ := by
  constructor
  · exact (twoBaselines_independent
      ⟨none, some ⟨some "D1", some ⟨1, 1⟩, some "open"⟩⟩ ⟨1, 1⟩ ⟨1, 1⟩).1
      (by decide) rfl (by decide)
  · exact (twoBaselines_independent ⟨some ⟨1, 1⟩, none⟩ ⟨1, 1⟩ ⟨1, 1⟩).2 (by decide)
